import Mathlib

/-!
A shallow embedding of the SampleHeap sampling layer from
`src/src/include/sampleheap.hpp` (the scalene allocator-interception core),
together with theorems settling the specification claims about it.

Modelling conventions:
* Machine addresses (`void*`) are `Nat`, with `0` standing for `nullptr`.
* The collaborators (the `Sampler` instances, the `whereInPython`
  symbolication hook, the `SuperHeap` underlying allocator and the
  `MallocRecursionGuard`) live outside the excerpted source; each call's
  interaction with them is passed in as an oracle argument: the sampler's
  return value, the symbolication result (`Option Loc`, `none` = failure or
  no resolver installed), the pointer and delivered size returned by the
  underlying allocator, and the guard's `wasInMalloc()` answer.
* The record text produced by `snprintf_` is modelled field by field as a
  `Record` value; appending to the sample file and `raise(sig)` are modelled
  by returning lists of emitted records and raised signals.
* The C `float` attribution fraction is modelled as an exact rational.
-/

namespace Scalene

/-- A source location as produced by the symbolication collaborator
`whereInPython(filename, lineno, bytei)`. -/
structure Loc where
  filename : String
  lineno : Int
  bytei : Int
deriving DecidableEq

/-- The two signal numbers of `enum AllocSignal { MallocSignal = SIGXCPU,
FreeSignal = SIGXFSZ }`. -/
inductive AllocSignal where
  | MallocSignal : AllocSignal
  | FreeSignal : AllocSignal
deriving DecidableEq

/-- One emitted sample line, field by field, following the format string
`"%c,%lu,%lu,%f,%d,%p,%s,%d,%d\n\n"` of `writeCount`: kind character,
sequence number, sampled byte count, attribution fraction, pid, address,
then the source location. -/
structure Record where
  kind : Char
  seq : Nat
  count : Nat
  frac : Rat
  pid : Nat
  address : Nat
  loc : Loc
deriving DecidableEq

/-- The mutable state of a `SampleHeap` instance together with the
process-wide static trigger counters: `_pythonCount`, `_cCount`,
`_lastMallocTrigger`, `_freedLastMallocTrigger`, `mallocTriggered()`,
`freeTriggered()`. -/
structure State where
  pythonCount : Nat
  cCount : Nat
  lastMallocTrigger : Nat
  freedLastMallocTrigger : Bool
  mallocTriggered : Nat
  freeTriggered : Nat
deriving DecidableEq

/-- The state after the `SampleHeap` constructor in a fresh process:
`_lastMallocTrigger(nullptr)`, `_freedLastMallocTrigger(false)`, the
in-class initializers `_pythonCount{0}`, `_cCount{0}` and the static
counters starting at zero. -/
def initState : State :=
  { pythonCount := 0, cCount := 0, lastMallocTrigger := 0,
    freedLastMallocTrigger := false, mallocTriggered := 0, freeTriggered := 0 }

/-- Effects of one call: the state left behind, the records appended to the
sample file, and the signals raised, in order. -/
def Effects : Type := State × List Record × List AllocSignal

/-- `writeCount(sig, count, ptr, filename, lineno, bytei)`: first the
division guard `if (_pythonCount == 0) _pythonCount = 1;`, then the record
is formatted from the (guarded) state — kind is `'M'` for `MallocSignal`,
else `'f'` when `_freedLastMallocTrigger` and `'F'` otherwise; sequence
number is `mallocTriggered() + freeTriggered()`; the fraction is
`(float)_pythonCount / (_pythonCount + _cCount)`; the address is
`_freedLastMallocTrigger ? _lastMallocTrigger : ptr` — and finally
`_freedLastMallocTrigger = false` before the buffer is written. Returns the
written record and the updated state. -/
def writeCount (pid : Nat) (sig : AllocSignal) (count : Nat) (ptr : Nat)
    (loc : Loc) (s : State) : Record × State :=
  let pythonCount : Nat := if s.pythonCount = 0 then 1 else s.pythonCount
  let r : Record :=
    { kind := if sig = AllocSignal.MallocSignal then 'M'
              else if s.freedLastMallocTrigger then 'f' else 'F'
      seq := s.mallocTriggered + s.freeTriggered
      count := count
      frac := (pythonCount : Rat) / ((pythonCount : Rat) + (s.cCount : Rat))
      pid := pid
      address := if s.freedLastMallocTrigger then s.lastMallocTrigger else ptr
      loc := loc }
  (r, { s with pythonCount := pythonCount, freedLastMallocTrigger := false })

/-- `process_malloc(sampleMalloc, ptr)`: if symbolication fails (`where ==
nullptr` or `where(...)` returns false, both modelled by `none`) nothing
happens; otherwise `writeCount(MallocSignal, ...)` runs, `MallocSignal` is
raised, and then `_lastMallocTrigger = ptr`, `_freedLastMallocTrigger =
false`, `_pythonCount = 0`, `_cCount = 0`, `mallocTriggered()++`. -/
def process_malloc (pid : Nat) (sampleMalloc : Nat) (ptr : Nat)
    (whereResult : Option Loc) (s : State) : Effects :=
  match whereResult with
  | none => (s, [], [])
  | some loc =>
      let rs := writeCount pid AllocSignal.MallocSignal sampleMalloc ptr loc s
      let s2 : State :=
        { rs.2 with lastMallocTrigger := ptr, freedLastMallocTrigger := false,
                    pythonCount := 0, cCount := 0,
                    mallocTriggered := rs.2.mallocTriggered + 1 }
      (s2, [rs.1], [AllocSignal.MallocSignal])

/-- `register_malloc(realSize, ptr, inPythonAllocator)`: the sampler result
is the oracle `sampleMalloc`; `realSize` accrues to `_pythonCount` or
`_cCount` per the origin flag; a non-zero sampler result runs
`process_malloc`. (The debug check `assert(realSize)` is not modelled as
control flow; theorems needing it carry a `realSize ≠ 0` hypothesis.) -/
def register_malloc (pid : Nat) (realSize : Nat) (ptr : Nat)
    (inPythonAllocator : Bool) (sampleMalloc : Nat) (whereResult : Option Loc)
    (s : State) : Effects :=
  let s1 : State :=
    if inPythonAllocator then { s with pythonCount := s.pythonCount + realSize }
    else { s with cCount := s.cCount + realSize }
  if sampleMalloc ≠ 0 then process_malloc pid sampleMalloc ptr whereResult s1
  else (s1, [], [])

/-- `process_free(sampleFree)`: if symbolication fails nothing happens;
otherwise `writeCount(FreeSignal, sampleFree, nullptr, ...)` runs — note the
freed pointer is not available here and `nullptr` is passed — then
`raise(MallocSignal)` (the source comment reads `// was FreeSignal`) and
`freeTriggered()++`. -/
def process_free (pid : Nat) (sampleFree : Nat) (whereResult : Option Loc)
    (s : State) : Effects :=
  match whereResult with
  | none => (s, [], [])
  | some loc =>
      let rs := writeCount pid AllocSignal.FreeSignal sampleFree 0 loc s
      ({ rs.2 with freeTriggered := rs.2.freeTriggered + 1 },
       [rs.1], [AllocSignal.MallocSignal])

/-- `register_free(realSize, ptr)`: the malloc sampler is told to
`unsample(realSize)` (collaborator-internal, no state here); the free
sampler's result is the oracle `sampleFree`; if `ptr && ptr ==
_lastMallocTrigger` the flag `_freedLastMallocTrigger` is set; a non-zero
sampler result runs `process_free`. -/
def register_free (pid : Nat) (realSize : Nat) (ptr : Nat) (sampleFree : Nat)
    (whereResult : Option Loc) (s : State) : Effects :=
  let s1 : State :=
    if ptr ≠ 0 ∧ ptr = s.lastMallocTrigger
    then { s with freedLastMallocTrigger := true } else s
  if sampleFree ≠ 0 then process_free pid sampleFree whereResult s1
  else (s1, [], [])

/-- `malloc(sz)`: the underlying allocator's answer is the oracle
`superPtr` (0 = `nullptr`, returned immediately with no side effects) and
its delivered size the oracle `realSize`; if the recursion guard reports a
nested call sampling is skipped; otherwise, when `realSize > 0`,
`register_malloc(realSize, ptr, false)` runs (`false` = invoked from C/C++).
Returns the pointer and the effects. -/
def malloc (pid : Nat) (superPtr : Nat) (realSize : Nat) (wasInMalloc : Bool)
    (sampleMalloc : Nat) (whereResult : Option Loc) (s : State) :
    Nat × Effects :=
  if superPtr = 0 then (0, s, [], [])
  else if wasInMalloc then (superPtr, s, [], [])
  else if 0 < realSize then
    (superPtr, register_malloc pid realSize superPtr false sampleMalloc whereResult s)
  else (superPtr, s, [], [])

/-- `free(ptr)`: a null pointer is a no-op; on a nested call sampling is
skipped; otherwise the delivered size (oracle `realSize`) is queried before
release and `register_free(realSize, ptr)` runs. The actual
`SuperHeap::free(ptr)` is collaborator-internal. -/
def free (pid : Nat) (ptr : Nat) (realSize : Nat) (wasInMalloc : Bool)
    (sampleFree : Nat) (whereResult : Option Loc) (s : State) : Effects :=
  if ptr = 0 then (s, [], [])
  else if wasInMalloc then (s, [], [])
  else register_free pid realSize ptr sampleFree whereResult s

/-- The condition under which the two `memalign` assertions pass:
`assert(realSize >= sz); assert((sz < 16) || (realSize <= 2 * sz));`. -/
def memalignAssertsOk (sz realSize : Nat) : Bool :=
  decide (sz ≤ realSize) && (decide (sz < 16) || decide (realSize ≤ 2 * sz))

/-- `memalign(alignment, sz)`: like `malloc` but with the two sanity
assertions on the underlying allocator checked before sampling, and the
sampled bytes forwarded by `register_malloc(realSize, ptr)` with the
defaulted origin flag `inPythonAllocator = true`. An assertion failure
aborts, modelled by `none`. -/
def memalign (pid : Nat) (alignment : Nat) (sz : Nat) (superPtr : Nat)
    (realSize : Nat) (wasInMalloc : Bool) (sampleMalloc : Nat)
    (whereResult : Option Loc) (s : State) : Option (Nat × Effects) :=
  if superPtr = 0 then some (0, s, [], [])
  else if wasInMalloc then some (superPtr, s, [], [])
  else if memalignAssertsOk sz realSize then
    some (superPtr, register_malloc pid realSize superPtr true sampleMalloc whereResult s)
  else none

/-- One intercepted call together with its collaborator oracles, for
replaying whole call sequences. -/
inductive Event where
  | mallocEv (superPtr realSize : Nat) (wasInMalloc : Bool)
      (sampleMalloc : Nat) (whereResult : Option Loc) : Event
  | freeEv (ptr realSize : Nat) (wasInMalloc : Bool)
      (sampleFree : Nat) (whereResult : Option Loc) : Event

/-- Replay a sequence of intercepted calls from a state, accumulating the
records appended to the sample file and the signals raised, in order. -/
def run (pid : Nat) (events : List Event) (s : State) : Effects :=
  match events with
  | [] => (s, [], [])
  | e :: rest =>
      let eff : Effects :=
        match e with
        | Event.mallocEv superPtr realSize w n wr =>
            (malloc pid superPtr realSize w n wr s).2
        | Event.freeEv ptr realSize w n wr =>
            free pid ptr realSize w n wr s
      let eff2 := run pid rest eff.1
      (eff2.1, eff.2.1 ++ eff2.2.1, eff.2.2 ++ eff2.2.2)

/-- A fixed concrete source location for closed witnesses and
counterexamples. -/
def loc0 : Loc := { filename := "test.py", lineno := 3, bytei := 0 }

end Scalene

namespace Scalene

/-- The two `memalign` size conditions exactly as the specification claim
words them: delivered size at least requested size, and for every request
smaller than 16 bytes delivered size at most twice requested size. Stated
from the spec's words, for comparison with the source-derived
`memalignAssertsOk`. -/
def memalignAssertsSpec (sz realSize : Nat) : Prop :=
  sz ≤ realSize ∧ (sz < 16 → realSize ≤ 2 * sz)

/-- C6: if symbolication fails at a trigger (no resolver installed or
resolve returns failure, both `none`), the entire sample is suppressed: no
record, no signal, and no mutation of any state by the trigger-handling
path (`process_malloc` / `process_free`). -/
theorem C6_symbolication_failure_suppresses (pid n ptr : Nat) (s : State) :
    process_malloc pid n ptr none s = (s, [], []) ∧
    process_free pid n none s = (s, [], []) :=
  ⟨rfl, rfl⟩

/-- C8: every trigger that emits a record — malloc trigger or free
trigger — raises exactly the malloc signal (`process_free` raises
`MallocSignal`, not `FreeSignal`). -/
theorem C8_same_signal_for_both_triggers (pid n ptr : Nat) (loc : Loc) (s : State) :
    (process_malloc pid n ptr (some loc) s).2.2 = [AllocSignal.MallocSignal] ∧
    (process_free pid n (some loc) s).2.2 = [AllocSignal.MallocSignal] :=
  ⟨rfl, rfl⟩

/-- C9: when the underlying allocator returns the null indicator, `malloc`
and `memalign` return it immediately with the state unchanged, no record
and no signal. -/
theorem C9_null_alloc_no_side_effects (pid realSize alignment sz n : Nat)
    (w : Bool) (whereResult : Option Loc) (s : State) :
    malloc pid 0 realSize w n whereResult s = (0, s, [], []) ∧
    memalign pid alignment sz 0 realSize w n whereResult s = some (0, s, [], []) :=
  ⟨rfl, rfl⟩

/-- C7: the record's attribution fraction is `p / (p + cCount)` where `p`
is `pythonCount` with 1 substituted when it is exactly zero; in particular
managed 300 / native 100 gives 3/4 and managed 0 / native 50 gives 1/51. -/
theorem C7_attribution_fraction (pid : Nat) (sig : AllocSignal)
    (count ptr : Nat) (loc : Loc) (s : State) :
    ((writeCount pid sig count ptr loc s).1.frac
       = (((if s.pythonCount = 0 then 1 else s.pythonCount) : Nat) : Rat)
         / ((((if s.pythonCount = 0 then 1 else s.pythonCount) : Nat) : Rat)
            + (s.cCount : Rat))) ∧
    (writeCount 1 AllocSignal.MallocSignal 5 9 loc0 ⟨300, 100, 0, false, 0, 0⟩).1.frac
       = 3 / 4 ∧
    (writeCount 1 AllocSignal.FreeSignal 5 0 loc0 ⟨0, 50, 0, false, 0, 0⟩).1.frac
       = 1 / 51 := by
  refine ⟨rfl, ?_, ?_⟩ <;> norm_num [writeCount]

end Scalene

namespace Scalene

/-- C5 counterexample: a free trigger with the managed counter at zero does
change it — the division guard inside the record write sets it to 1, and
`process_free` never restores it — so the counters do not all hold the
values they held when the write began. -/
theorem C5_counterexample :
    (process_free 42 10 (some loc0) ⟨0, 50, 5, false, 1, 0⟩).1.pythonCount ≠
    (⟨0, 50, 5, false, 1, 0⟩ : State).pythonCount := by
  decide

/-- C5 (amended): the attribution counters are reset to zero exactly when a
malloc trigger fires; a free trigger leaves the native counter unchanged
and leaves the managed counter unchanged unless it was zero at write time,
in which case the division guard leaves it at 1. -/
theorem C5_attribution_counters (pid n ptr : Nat) (loc : Loc) (s : State) :
    ((process_free pid n (some loc) s).1.cCount = s.cCount ∧
     (process_free pid n (some loc) s).1.pythonCount
       = (if s.pythonCount = 0 then 1 else s.pythonCount)) ∧
    ((process_malloc pid n ptr (some loc) s).1.pythonCount = 0 ∧
     (process_malloc pid n ptr (some loc) s).1.cCount = 0) := by
  refine ⟨⟨rfl, rfl⟩, rfl, rfl⟩

/-- C3 counterexample: with a sampler that triggers on every call, the very
first malloc trigger in a fresh process emits a record with sequence number
0, not 1 — the trigger counters are incremented only after the write. -/
theorem C3_counterexample :
    (run 7 [Event.mallocEv 5 1000 false 1 (some loc0)] initState).2.1.map Record.seq
      = [0] ∧ (0 : Nat) ≠ 1 := by
  exact ⟨rfl, by decide⟩

/-- C3 (amended): a record's sequence number equals the sum of the
malloc-trigger and free-trigger counters at write time (the counters are
incremented after the write), so the very first malloc trigger in a fresh
process emits a record with sequence number 0. -/
theorem C3_seq_is_counter_sum (pid n ptr : Nat) (loc : Loc) (s : State) :
    (process_malloc pid n ptr (some loc) s).2.1.map Record.seq
       = [s.mallocTriggered + s.freeTriggered] ∧
    (process_free pid n (some loc) s).2.1.map Record.seq
       = [s.mallocTriggered + s.freeTriggered] ∧
    (run pid [Event.mallocEv 5 1000 false 1 (some loc)] initState).2.1.map Record.seq
       = [0] := by
  exact ⟨rfl, rfl, rfl⟩

end Scalene

namespace Scalene

/-- C4 counterexample: the source assertion `(sz < 16) || (realSize <= 2*sz)`
exempts small requests rather than constraining them. At requested size 8
with delivered size 100 the assertions pass although the claim's conditions
fail; at requested size 16 with delivered size 33 the assertions fire
although the claim's conditions hold; concretely, `memalign` completes
without an assertion failure at (8, 100). -/
theorem C4_counterexample :
    (memalignAssertsOk 8 100 = true ∧ ¬ memalignAssertsSpec 8 100) ∧
    (memalignAssertsOk 16 33 = false ∧ memalignAssertsSpec 16 33) ∧
    (memalign 1 16 8 9 100 false 0 none initState).isSome = true := by
  refine ⟨⟨rfl, ?_⟩, ⟨rfl, ?_⟩, rfl⟩ <;> simp [memalignAssertsSpec]

/-- C4 (amended): for a non-null pointer on a non-nested call, the
`memalign` assertions pass exactly when the delivered size is at least the
requested size and, for every request of at least 16 bytes, the delivered
size is at most twice the requested size; requests smaller than 16 bytes
are exempt from the doubling bound. -/
theorem C4_memalign_asserts (pid alignment sz superPtr realSize n : Nat)
    (w : Option Loc) (s : State) (hptr : superPtr ≠ 0) :
    (memalign pid alignment sz superPtr realSize false n w s).isSome
      ↔ (sz ≤ realSize ∧ (16 ≤ sz → realSize ≤ 2 * sz)) := by
  simp only [memalign, if_neg hptr, Bool.false_eq_true, if_false,
    memalignAssertsOk]
  constructor
  · intro h
    by_contra hc
    have : ¬ ((decide (sz ≤ realSize) && (decide (sz < 16) || decide (realSize ≤ 2 * sz))) = true) := by
      simp only [Bool.and_eq_true, Bool.or_eq_true, decide_eq_true_eq]
      omega
    simp [this] at h
  · intro h
    have : (decide (sz ≤ realSize) && (decide (sz < 16) || decide (realSize ≤ 2 * sz))) = true := by
      simp only [Bool.and_eq_true, Bool.or_eq_true, decide_eq_true_eq]
      omega
    simp [this]

/-- C4 witness: the amended equivalence applied at requested size 16,
delivered size 32, with a non-null pointer. -/
theorem C4_witness :
    (memalign 1 16 16 9 32 false 0 none initState).isSome
      ↔ (16 ≤ 32 ∧ (16 ≤ 16 → 32 ≤ 2 * 16)) :=
  C4_memalign_asserts 1 16 16 9 32 0 none initState (by decide)

end Scalene

namespace Scalene

/-- C1 counterexample: a free trigger on pointer 7 while the stored
last-malloc-trigger address is 5 (flag clear) emits a record of kind `F`
whose reported address is the null pointer 0, not the freed pointer 7 —
`process_free` passes `nullptr` to `writeCount`. -/
theorem C1_counterexample :
    (free 42 7 100 false 1 (some loc0) ⟨3, 1, 5, false, 1, 0⟩).2.1.map
      (fun r => (r.kind, r.address)) = [('F', 0)] ∧ (0 : Nat) ≠ 7 := by
  exact ⟨rfl, by decide⟩

/-- C1 (amended): for a free trigger on a non-null pointer that differs
from the stored last-malloc-trigger address, with the already-freed flag
clear, the record has kind `F` and its reported address is the null
pointer (the free path does not forward the freed pointer); when the freed
pointer equals the stored address, the record has kind `f` and reports
that stored address. -/
theorem C1_free_trigger_record (pid ptr realSize n : Nat) (loc : Loc)
    (s : State) (hptr : ptr ≠ 0) (hn : n ≠ 0) :
    (ptr ≠ s.lastMallocTrigger → s.freedLastMallocTrigger = false →
      (free pid ptr realSize false n (some loc) s).2.1.map
        (fun r => (r.kind, r.address)) = [('F', 0)]) ∧
    (ptr = s.lastMallocTrigger →
      (free pid ptr realSize false n (some loc) s).2.1.map
        (fun r => (r.kind, r.address)) = [('f', s.lastMallocTrigger)]) := by
  constructor
  · intro hne hflag
    simp [free, register_free, process_free, writeCount, hptr, hn, hne, hflag]
  · intro heq
    subst heq
    simp [free, register_free, process_free, writeCount, hptr, hn]

/-- C1 witness: the amended statement applied with stored trigger address
5, once to a free of pointer 7 (kind `F`, reported address 0) and once to
a free of pointer 5 (kind `f`, reported address 5). -/
theorem C1_witness :
    (free 42 7 100 false 1 (some loc0) ⟨3, 1, 5, false, 1, 0⟩).2.1.map
      (fun r => (r.kind, r.address)) = [('F', 0)] ∧
    (free 42 5 100 false 1 (some loc0) ⟨3, 1, 5, false, 1, 0⟩).2.1.map
      (fun r => (r.kind, r.address)) = [('f', 5)] := by
  constructor
  · exact (C1_free_trigger_record 42 7 100 1 loc0 ⟨3, 1, 5, false, 1, 0⟩
      (by decide) (by decide)).1 (by decide) rfl
  · exact (C1_free_trigger_record 42 5 100 1 loc0 ⟨3, 1, 5, false, 1, 0⟩
      (by decide) (by decide)).2 rfl

end Scalene

namespace Scalene

/-- C2 counterexample: a malloc trigger at address 5, a matching free
trigger (kind `f`), a non-triggering reallocation at the same address, and
a second matching free trigger produce two `f` records reporting the same
trigger pointer 5 — the trigger pointer is not reported as freed only on
its first matching free. -/
theorem C2_counterexample :
    (run 7 [Event.mallocEv 5 100 false 1 (some loc0),
            Event.freeEv 5 100 false 1 (some loc0),
            Event.mallocEv 5 100 false 0 (some loc0),
            Event.freeEv 5 100 false 1 (some loc0)] initState).2.1.map
      (fun r => (r.kind, r.address)) = [('M', 5), ('f', 5), ('f', 5)] ∧
    ((run 7 [Event.mallocEv 5 100 false 1 (some loc0),
             Event.freeEv 5 100 false 1 (some loc0),
             Event.mallocEv 5 100 false 0 (some loc0),
             Event.freeEv 5 100 false 1 (some loc0)] initState).2.1.filter
      (fun r => decide (r.kind = 'f') && decide (r.address = 5))).length = 2 := by
  exact ⟨rfl, rfl⟩

/-- C2 (amended): every record write clears the already-freed flag
immediately after formatting, whatever the record's kind; a free trigger on
a non-null pointer emits exactly one record, of kind `f` precisely when the
flag is set at write time (the pointer matches the stored trigger address
now, or the flag was left set by an earlier unreported matching free), and
leaves the flag clear; a later matching free can set the flag, and be
reported as `f`, again. -/
theorem C2_flag_cleared_after_write (pid ptr realSize n : Nat) (loc : Loc)
    (s : State) (hptr : ptr ≠ 0) (hn : n ≠ 0) :
    (∀ (sig : AllocSignal) (count ptr2 : Nat),
        (writeCount pid sig count ptr2 loc s).2.freedLastMallocTrigger = false) ∧
    (free pid ptr realSize false n (some loc) s).1.freedLastMallocTrigger = false ∧
    (free pid ptr realSize false n (some loc) s).2.1.map Record.kind
      = [if s.freedLastMallocTrigger || decide (ptr = s.lastMallocTrigger)
         then 'f' else 'F'] := by
  refine ⟨fun sig count ptr2 => rfl, ?_, ?_⟩
  · by_cases heq : ptr = s.lastMallocTrigger
    · subst heq
      simp [free, register_free, process_free, writeCount, hptr, hn]
    · simp [free, register_free, process_free, writeCount, hptr, hn, heq]
  · by_cases heq : ptr = s.lastMallocTrigger
    · subst heq
      simp [free, register_free, process_free, writeCount, hptr, hn]
    · cases hflag : s.freedLastMallocTrigger <;>
        simp [free, register_free, process_free, writeCount, hptr, hn, heq, hflag]

/-- C2 witness: the amended statement applied to a free of pointer 5 with
stored trigger address 5 and the flag clear: one record, kind `f`, and the
flag is clear afterwards. -/
theorem C2_witness :
    (free 42 5 100 false 1 (some loc0) ⟨3, 1, 5, false, 1, 0⟩).1.freedLastMallocTrigger
      = false ∧
    (free 42 5 100 false 1 (some loc0) ⟨3, 1, 5, false, 1, 0⟩).2.1.map Record.kind
      = [ 'f' ] := by
  have h := C2_flag_cleared_after_write 42 5 100 1 loc0 ⟨3, 1, 5, false, 1, 0⟩
    (by decide) (by decide)
  exact ⟨h.2.1, by simpa using h.2.2⟩

/-- C10: `memalign` forwards sampled bytes with the defaulted
managed-language origin flag so they accrue to the managed counter, while
`malloc` forwards with the native flag so they accrue to the native
counter (shown on non-triggering calls, where the accrual is visible). -/
theorem C10_origin_flags (pid superPtr realSize alignment sz : Nat)
    (whereResult : Option Loc) (s : State) (hptr : superPtr ≠ 0)
    (hrs : 0 < realSize) (hA : sz ≤ realSize)
    (hB : sz < 16 ∨ realSize ≤ 2 * sz) :
    ((malloc pid superPtr realSize false 0 whereResult s).2.1.cCount
        = s.cCount + realSize ∧
     (malloc pid superPtr realSize false 0 whereResult s).2.1.pythonCount
        = s.pythonCount) ∧
    ((memalign pid alignment sz superPtr realSize false 0 whereResult s).map
        (fun x => (x.2.1.pythonCount, x.2.1.cCount))
        = some (s.pythonCount + realSize, s.cCount)) := by
  have hok : memalignAssertsOk sz realSize = true := by
    simp only [memalignAssertsOk, Bool.and_eq_true, Bool.or_eq_true,
      decide_eq_true_eq]
    omega
  refine ⟨?_, ?_⟩
  · simp [malloc, register_malloc, hptr, hrs]
  · simp [memalign, register_malloc, hptr, hok]

/-- C10 witness: a non-nested `malloc` of delivered size 100 accrues to the
native counter, and a non-nested `memalign` with requested size 50 and
delivered size 100 accrues to the managed counter. -/
theorem C10_witness :
    ((malloc 1 9 100 false 0 none initState).2.1.cCount
        = initState.cCount + 100 ∧
     (malloc 1 9 100 false 0 none initState).2.1.pythonCount
        = initState.pythonCount) ∧
    ((memalign 1 16 50 9 100 false 0 none initState).map
        (fun x => (x.2.1.pythonCount, x.2.1.cCount))
        = some (initState.pythonCount + 100, initState.cCount)) :=
  C10_origin_flags 1 9 100 16 50 none initState (by decide) (by decide)
    (by decide) (by decide)

end Scalene
